import Mathlib

/-
  Verification of the `try.rs` Result library (src/result.ts, src/index.ts).

  The library is a two-variant tagged union `Result<T, E>` with the classes
  `Ok<T, E>` (field `value`) and `Err<T, E>` (field `error`), their combinator
  methods, the constructors `ok`/`err`, and the capture adapters
  `tryFn`/`tryAsync`.

  Embedding choices:
  - `Result T E` is an inductive with constructors `Ok : T → Result T E` and
    `Err : E → Result T E`, mirroring the discriminated union of the two
    classes (`_tag` is the constructor itself).
  - JavaScript runtime values thrown by computations, and the string coercion
    used by the template literal in `Err.unwrap` and by `String(x)` in the
    adapters, are modelled by `JSValue` / `jsToString` (default `ToString`
    semantics: a plain object coerces to "[object Object]", an `Error`
    instance to "Error: <message>").
  - Methods whose JS bodies cannot throw are translated as pure Lean
    functions.  To reason about exception propagation, each combinator that
    invokes a caller-supplied function also has an exception-aware
    translation (suffix `T`) in the `Except X` monad, where `X` is the type
    of thrown values: `fn v` in the JS body becomes a monadic call that may
    throw.  `Err.unwrap`, the one method whose own body throws, returns
    `Except JSValue`.
  - A settled promise is its settlement outcome: `tryAsync`'s awaited
    computation is an `Except JSValue T` just like `tryFn`'s.
-/

namespace TryRs

/-- Model of JavaScript runtime values, as far as the library inspects them:
`instanceof Error` and default string coercion. An `Error` instance carries
its `message`; `obj` is a plain object (e.g. a validation record). -/
inductive JSValue : Type where
  | str : String → JSValue
  | num : Int → JSValue
  | boolean : Bool → JSValue
  | nullV : JSValue
  | undefinedV : JSValue
  | errObj : String → JSValue
  | obj : List (String × JSValue) → JSValue

/-- JavaScript default string coercion `String(x)` / template-literal
interpolation, for the modelled values: `Error.prototype.toString` is
"Error: <message>" (just "Error" when the message is empty) and a plain
object coerces to "[object Object]". -/
def jsToString : JSValue → String
  | .str s => s
  | .num n => toString n
  | .boolean b => if b then "true" else "false"
  | .nullV => "null"
  | .undefinedV => "undefined"
  | .errObj m => if m = "" then "Error" else "Error: " ++ m
  | .obj _ => "[object Object]"

/-- The `error instanceof Error` test of the capture adapters. -/
def isErrorInstance : JSValue → Bool
  | .errObj _ => true
  | _ => false

/-- `Result<T, E>`: the discriminated union of the classes `Ok<T, E>`
(holding `value : T`) and `Err<T, E>` (holding `error : E`). -/
inductive Result (T E : Type) : Type where
  | Ok : T → Result T E
  | Err : E → Result T E

variable {T E U F X : Type}

/-- `Ok.isOk` returns `true`; `Err.isOk` returns `false`. -/
def Result.isOk : Result T E → Bool
  | .Ok _ => true
  | .Err _ => false

/-- `Ok.isErr` returns `false`; `Err.isErr` returns `true`. -/
def Result.isErr : Result T E → Bool
  | .Ok _ => false
  | .Err _ => true

/-- `unwrap`: `Ok.unwrap` returns `this.value`; `Err.unwrap` throws
`new Error(`Tried to unwrap an Err: ${this.error}`)`.  The thrown value is
an `Error` instance whose message is the literal prefix followed by the
default string coercion of the payload. -/
def Result.unwrap : Result T JSValue → Except JSValue T
  | .Ok v => .ok v
  | .Err e => .error (JSValue.errObj ("Tried to unwrap an Err: " ++ jsToString e))

/-- `unwrapOr`: `Ok` returns `this.value`, `Err` returns `defaultValue`. -/
def Result.unwrapOr (r : Result T E) (defaultValue : T) : T :=
  match r with
  | .Ok v => v
  | .Err _ => defaultValue

/-- `map`: `Ok` returns `new Ok(fn(this.value))`, `Err` returns
`new Err(this.error)` retyped. -/
def Result.map (r : Result T E) (fn : T → U) : Result U E :=
  match r with
  | .Ok v => .Ok (fn v)
  | .Err e => .Err e

/-- `mapErr`: `Ok` returns `new Ok(this.value)` retyped, `Err` returns
`new Err(fn(this.error))`. -/
def Result.mapErr (r : Result T E) (fn : E → F) : Result T F :=
  match r with
  | .Ok v => .Ok v
  | .Err e => .Err (fn e)

/-- `mapOr`: `Ok` returns `fn(this.value)`, `Err` returns `defaultValue`. -/
def Result.mapOr (r : Result T E) (defaultValue : U) (fn : T → U) : U :=
  match r with
  | .Ok v => fn v
  | .Err _ => defaultValue

/-- `andThen`: `Ok` returns `fn(this.value)` (already a Result, no extra
wrapping), `Err` returns `new Err(this.error)` retyped. -/
def Result.andThen (r : Result T E) (fn : T → Result U E) : Result U E :=
  match r with
  | .Ok v => fn v
  | .Err e => .Err e

/-- `or`: `Ok` returns `new Ok(this.value)` retyped, `Err` returns the
supplied `res` as-is. -/
def Result.or (r : Result T E) (res : Result T F) : Result T F :=
  match r with
  | .Ok v => .Ok v
  | .Err _ => res

/-- `unwrapOrElse`: `Ok` returns `this.value`, `Err` returns
`fn(this.error)`. -/
def Result.unwrapOrElse (r : Result T E) (fn : E → T) : T :=
  match r with
  | .Ok v => v
  | .Err e => fn e

/-- The handler object taken by `match`: `{ ok: (value: T) => U,
err: (error: E) => U }`. -/
structure MatchOptions (T E U : Type) : Type where
  ok : T → U
  err : E → U

/-- `match` (named `matchR` since `match` is reserved in Lean): `Ok` returns
`options.ok(this.value)`, `Err` returns `options.err(this.error)`. -/
def Result.matchR (r : Result T E) (options : MatchOptions T E U) : U :=
  match r with
  | .Ok v => options.ok v
  | .Err e => options.err e

/-- `ok(value)`: `new Ok(value)`. -/
def ok (value : T) : Result T E := Result.Ok value

/-- `err(error)`: `new Err(error)`. -/
def err (error : E) : Result T E := Result.Err error

/-- `tryFn(fn)`: evaluate `fn()`; on normal return wrap in `Ok`; on a thrown
value, wrap in `Err` the value itself when it is an `Error` instance and
otherwise `new Error(String(error))`.  The computation `fn` is its outcome:
`Except.ok t` when it returns `t`, `Except.error x` when it throws `x`. -/
def tryFn (fn : Except JSValue T) : Result T JSValue :=
  match fn with
  | .ok t => Result.Ok t
  | .error e =>
      Result.Err (if isErrorInstance e then e else JSValue.errObj (jsToString e))

/-- `tryAsync(fn)`: await `fn()`; on fulfillment wrap the resolved value in
`Ok`; on rejection apply the same normalization as `tryFn`.  The settled
promise is modelled by its settlement outcome. -/
def tryAsync (fn : Except JSValue T) : Result T JSValue :=
  match fn with
  | .ok value => Result.Ok value
  | .error e =>
      Result.Err (if isErrorInstance e then e else JSValue.errObj (jsToString e))

/-- Exception-aware `map`: the JS body `new Ok(fn(this.value))` first
evaluates `fn(this.value)`, so an exception thrown by `fn` propagates out of
the `map` call.  `X` is the type of thrown values. -/
def Result.mapT (r : Result T E) (fn : T → Except X U) : Except X (Result U E) :=
  match r with
  | .Ok v =>
      match fn v with
      | .ok u => .ok (.Ok u)
      | .error x => .error x
  | .Err e => .ok (.Err e)

/-- Exception-aware `mapErr`: `fn` is invoked only on the `Err` variant. -/
def Result.mapErrT (r : Result T E) (fn : E → Except X F) : Except X (Result T F) :=
  match r with
  | .Ok v => .ok (.Ok v)
  | .Err e =>
      match fn e with
      | .ok f => .ok (.Err f)
      | .error x => .error x

/-- Exception-aware `mapOr`: `fn` is invoked only on the `Ok` variant. -/
def Result.mapOrT (r : Result T E) (defaultValue : U) (fn : T → Except X U) :
    Except X U :=
  match r with
  | .Ok v => fn v
  | .Err _ => .ok defaultValue

/-- Exception-aware `andThen`: `fn` is invoked only on the `Ok` variant and
its result is returned without extra wrapping. -/
def Result.andThenT (r : Result T E) (fn : T → Except X (Result U E)) :
    Except X (Result U E) :=
  match r with
  | .Ok v => fn v
  | .Err e => .ok (.Err e)

/-- Exception-aware `or`: neither branch of the JS body calls any
caller-supplied function, so `or` never throws. -/
def Result.orT (r : Result T E) (res : Result T F) : Except X (Result T F) :=
  match r with
  | .Ok v => .ok (.Ok v)
  | .Err _ => .ok res

/-- Exception-aware `unwrapOrElse`: `fn` is invoked only on the `Err`
variant. -/
def Result.unwrapOrElseT (r : Result T E) (fn : E → Except X T) : Except X T :=
  match r with
  | .Ok v => .ok v
  | .Err e => fn e

/-- Instrumented `match`: the same dispatch as `matchR` but with handlers
that additionally thread a state, used to observe how many times each
handler is invoked.  The body is the direct state-passing translation of
`return options.ok(this.value)` / `return options.err(this.error)`. -/
def Result.matchEff {S : Type} (r : Result T E) (okh : T → S → S × U)
    (errh : E → S → S × U) (s : S) : S × U :=
  match r with
  | .Ok v => okh v s
  | .Err e => errh e s

/-- C1: the capture adapters never let a failure escape: `tryFn` over a
computation returning `t` yields `Ok t`; over a computation throwing `x` it
yields `Err x` when `x` is an `Error` instance (in particular an `Error`
with message `m` is stored as-is) and otherwise `Err (new Error(String(x)))`;
and `tryAsync` over a settled computation behaves identically to `tryFn`,
yielding a Result in both cases. -/
theorem tryFn_tryAsync_capture_no_escape (T : Type) (t : T) (m : String)
    (x : JSValue) :
    tryFn (Except.ok t) = Result.Ok t
    ∧ tryAsync (Except.ok t) = Result.Ok t
    ∧ (tryFn (Except.error (JSValue.errObj m)) : Result T JSValue)
        = Result.Err (JSValue.errObj m)
    ∧ (tryFn (Except.error x) : Result T JSValue)
        = Result.Err (if isErrorInstance x then x
                      else JSValue.errObj (jsToString x))
    ∧ (∀ fn : Except JSValue T, tryAsync fn = tryFn fn) := by
  refine ⟨rfl, rfl, ?_, rfl, fun fn => rfl⟩
  simp [tryFn, isErrorInstance]

/-- C2: `ok v |>.unwrap` returns `v`; `err e |>.unwrap` raises an `Error`
(the only raising core operation) whose message contains a representation of
`e` — the message is `p ++ jsToString e ++ q` for some surrounding text. -/
theorem unwrap_ok_and_err_raises (T : Type) (v : T) (e : JSValue) :
    (ok v : Result T JSValue).unwrap = Except.ok v
    ∧ ∃ msg p q, (err e : Result T JSValue).unwrap
          = Except.error (JSValue.errObj msg)
        ∧ msg = p ++ jsToString e ++ q := by
  refine ⟨rfl, "Tried to unwrap an Err: " ++ jsToString e,
    "Tried to unwrap an Err: ", "", rfl, ?_⟩
  simp

/-- C3: `andThen` satisfies left identity with flattening and
short-circuits: `ok v |>.andThen fn = fn v` with no double wrapping, and
`err e |>.andThen fn = err e` retyped, independent of the continuation
(`err e |>.andThen fn = err e |>.andThen gn` for any two continuations), so
the first failure in a chain is returned directly. -/
theorem andThen_left_identity_short_circuit (T E U : Type) (v : T) (e : E)
    (fn gn : T → Result U E) :
    (ok v : Result T E).andThen fn = fn v
    ∧ (err e : Result T E).andThen fn = err e
    ∧ (err e : Result T E).andThen fn = (err e : Result T E).andThen gn := by
  exact ⟨rfl, rfl, rfl⟩

/-- C4: `map` transforms only the success side and `mapErr` only the
failure side: `ok v |>.map fn = ok (fn v)`, `err e |>.map fn = err e`,
`err e |>.mapErr gn = err (gn e)`, `ok v |>.mapErr gn = ok v`. -/
theorem map_mapErr_side_selective (T E U F : Type) (v : T) (e : E)
    (fn : T → U) (gn : E → F) :
    (ok v : Result T E).map fn = ok (fn v)
    ∧ (err e : Result T E).map fn = err e
    ∧ (err e : Result T E).mapErr gn = err (gn e)
    ∧ (ok v : Result T E).mapErr gn = ok v := by
  exact ⟨rfl, rfl, rfl, rfl⟩

/-- C5 counterexample: `map` is not total over all caller-supplied
arguments — when the supplied function itself throws, the exception
propagates out of the `map` call instead of a Result being returned:
`(ok 0).map (fun _ => throw "boom")` evaluates, under the exception-aware
semantics, to the thrown value, not to `Except.ok` of any Result. -/
theorem map_throwing_fn_propagates :
    Result.mapT (ok 0 : Result Nat JSValue)
        (fun _ => (Except.error (JSValue.str "boom") : Except JSValue Nat))
      = Except.error (JSValue.str "boom") := by
  rfl

/-- C5 amended: every transformer (`map`, `mapErr`, `andThen`, `or`) is
total and returns a Result provided the caller-supplied functions do not
themselves throw; `or`, which invokes no caller-supplied function, never
throws regardless; and on non-throwing functions `map` agrees with the pure
translation.  (An exception thrown by a supplied function propagates, as the
counterexample shows.) -/
theorem transformers_total_when_fns_total (T E U F X : Type)
    (r : Result T E) (fn : T → Except X U) (gn : E → Except X F)
    (hn : T → Except X (Result U E)) (alt : Result T F) (f0 : T → U)
    (hf : ∀ x, ∃ u, fn x = Except.ok u)
    (hg : ∀ x, ∃ f, gn x = Except.ok f)
    (hh : ∀ x, ∃ r', hn x = Except.ok r') :
    (∃ r', r.mapT fn = Except.ok r')
    ∧ (∃ r', r.mapErrT gn = Except.ok r')
    ∧ (∃ r', r.andThenT hn = Except.ok r')
    ∧ (r.orT alt : Except X (Result T F)) = Except.ok (r.or alt)
    ∧ r.mapT (fun x => (Except.ok (f0 x) : Except X U)) = Except.ok (r.map f0) := by
  cases r with
  | Ok v =>
      obtain ⟨u, hu⟩ := hf v
      obtain ⟨r', hr⟩ := hh v
      exact ⟨⟨Result.Ok u, by simp [Result.mapT, hu]⟩,
        ⟨Result.Ok v, rfl⟩, ⟨r', hr⟩, rfl, rfl⟩
  | Err e =>
      obtain ⟨f, hfe⟩ := hg e
      exact ⟨⟨Result.Err e, rfl⟩,
        ⟨Result.Err f, by simp [Result.mapErrT, hfe]⟩,
        ⟨Result.Err e, rfl⟩, rfl, rfl⟩

/-- C5 witness: the amended totality theorem at a concrete Result and
concrete non-throwing functions. -/
theorem transformers_total_when_fns_total_witness :
    (∃ r', (ok 1 : Result Nat Nat).mapT
        (fun x => (Except.ok (x + 1) : Except Nat Nat)) = Except.ok r')
    ∧ (∃ r', (ok 1 : Result Nat Nat).mapErrT
        (fun x => (Except.ok x : Except Nat Nat)) = Except.ok r')
    ∧ (∃ r', (ok 1 : Result Nat Nat).andThenT
        (fun x => (Except.ok (Result.Ok x) : Except Nat (Result Nat Nat)))
          = Except.ok r')
    ∧ ((ok 1 : Result Nat Nat).orT (err 2) : Except Nat (Result Nat Nat))
        = Except.ok ((ok 1 : Result Nat Nat).or (err 2))
    ∧ (ok 1 : Result Nat Nat).mapT (fun x => (Except.ok (x + 1) : Except Nat Nat))
        = Except.ok ((ok 1 : Result Nat Nat).map (fun x => x + 1)) :=
  transformers_total_when_fns_total Nat Nat Nat Nat Nat (ok 1)
    (fun x => Except.ok (x + 1)) (fun x => Except.ok x)
    (fun x => Except.ok (Result.Ok x)) (err 2) (fun x => x + 1)
    (fun x => ⟨x + 1, rfl⟩) (fun x => ⟨x, rfl⟩)
    (fun x => ⟨Result.Ok x, rfl⟩)

/-- C6: every Result is exactly one variant: `ok v |>.isOk = true`,
`ok v |>.isErr = false`, `err e |>.isErr = true`, `err e |>.isOk = false`,
and for every Result whatsoever (however produced) the two predicates are
exact complements, so no instance answers both true or both false. -/
theorem variant_exclusive (T E : Type) (v : T) (e : E) (r : Result T E) :
    (ok v : Result T E).isOk = true
    ∧ (ok v : Result T E).isErr = false
    ∧ (err e : Result T E).isErr = true
    ∧ (err e : Result T E).isOk = false
    ∧ r.isOk = !r.isErr := by
  refine ⟨rfl, rfl, rfl, rfl, ?_⟩
  cases r <;> rfl

/-- C7: default-substitution operations: on `ok v`, `unwrapOr d = v`,
`unwrapOrElse fn = v`, `mapOr d fn = fn v`; on `err e`, `unwrapOr d = d`,
`unwrapOrElse fn = fn e`, `mapOr d fn = d`. -/
theorem default_substitution_ops (T E U : Type) (v : T) (e : E) (d : T)
    (u : U) (fn : E → T) (gn : T → U) :
    (ok v : Result T E).unwrapOr d = v
    ∧ (ok v : Result T E).unwrapOrElse fn = v
    ∧ (ok v : Result T E).mapOr u gn = gn v
    ∧ (err e : Result T E).unwrapOr d = d
    ∧ (err e : Result T E).unwrapOrElse fn = fn e
    ∧ (err e : Result T E).mapOr u gn = u := by
  exact ⟨rfl, rfl, rfl, rfl, rfl, rfl⟩

/-- C8: `match` dispatches exactly once to the matching handler: on `ok v`
it returns `options.ok v`, on `err e` it returns `options.err e`; and under
handlers instrumented to count their invocations, matching on `ok v`
invokes the ok-handler exactly once (with `v`) and the err-handler zero
times, and symmetrically for `err e`. -/
theorem match_dispatches_once (T E U : Type) (v : T) (e : E) (f : T → U)
    (g : E → U) (options : MatchOptions T E U) :
    (ok v : Result T E).matchR options = options.ok v
    ∧ (err e : Result T E).matchR options = options.err e
    ∧ (ok v : Result T E).matchEff
        (fun x s => ((s.1 + 1, s.2), f x)) (fun y s => ((s.1, s.2 + 1), g y))
        ((0, 0) : Nat × Nat) = ((1, 0), f v)
    ∧ (err e : Result T E).matchEff
        (fun x s => ((s.1 + 1, s.2), f x)) (fun y s => ((s.1, s.2 + 1), g y))
        ((0, 0) : Nat × Nat) = ((0, 1), g e) := by
  exact ⟨rfl, rfl, rfl, rfl⟩

/-- C9: the error raised by `err e |>.unwrap` has message exactly
`"Tried to unwrap an Err: " ++ String(e)` (default string coercion), and a
plain object payload coerces to the generic "[object Object]" rather than
its fields. -/
theorem unwrap_err_message_exact (T : Type) (e : JSValue)
    (fields : List (String × JSValue)) :
    (err e : Result T JSValue).unwrap
        = Except.error
            (JSValue.errObj ("Tried to unwrap an Err: " ++ jsToString e))
    ∧ jsToString (JSValue.obj fields) = "[object Object]" := by
  exact ⟨rfl, rfl⟩

/-- C10: on the non-matching variant the caller-supplied function is never
invoked and the outcome is independent of it: `err e |>.map f = err e |>.map
g`, `err e |>.andThen h = err e |>.andThen k`, `err e |>.mapOr d f = d`,
`ok v |>.mapErr p = ok v |>.mapErr q`, `ok v |>.unwrapOrElse fe = v`; and in
the exception-aware semantics the supplied function's effects cannot occur
there: on `err e` `mapT` returns without running its function, and on `ok v`
`mapErrT` and `unwrapOrElseT` do likewise. -/
theorem nonmatching_variant_independent (T E U F X : Type) (v : T) (e : E)
    (f g : T → U) (h k : T → Result U E) (p q : E → F) (d : U) (fe : E → T)
    (ft : T → Except X U) (pt : E → Except X F) (fet : E → Except X T) :
    (err e : Result T E).map f = (err e : Result T E).map g
    ∧ (err e : Result T E).andThen h = (err e : Result T E).andThen k
    ∧ (err e : Result T E).mapOr d f = d
    ∧ (ok v : Result T E).mapErr p = (ok v : Result T E).mapErr q
    ∧ (ok v : Result T E).unwrapOrElse fe = v
    ∧ (err e : Result T E).mapT ft = Except.ok (err e)
    ∧ (ok v : Result T E).mapErrT pt = Except.ok (ok v)
    ∧ (ok v : Result T E).unwrapOrElseT fet = Except.ok v := by
  exact ⟨rfl, rfl, rfl, rfl, rfl, rfl, rfl, rfl⟩

end TryRs
